import Mathlib

/-!
Verification of the RightGlaze draft-order checkout servers.

The repository contains several variants of the same Express server:
three concatenated inside `server.js` (called `V1`, `V2`, `V3` below, in
file order) and the standalone variants `part_000` (`P0`), `part_001`
(`P1`), `part_002` (`P2`) and `part_004` (the latter shares its
signature-verification code with `P2`).

Numbers are modelled by the rationals; a JavaScript number that may be
NaN (or otherwise non-finite) is modelled by `Option ℚ` with `none`
standing for the non-finite values, so that `Number.isFinite` guards and
NaN-propagation of arithmetic and comparisons are represented
faithfully.  Money rounding (`Math.round(x*100)/100`, `x.toFixed(2)`) is
modelled exactly on ℚ.  HMAC-SHA256 itself is an opaque parameter
`hmac : String → String`; everything the claims say is about which
message is handed to it and how its output is compared.
-/

/-- JavaScript numbers: `none` models NaN (and the other non-finite values). -/
abbrev JNum := Option ℚ

/-- Addition with NaN propagation. -/
def jAdd (a b : JNum) : JNum :=
  match a, b with
  | some x, some y => some (x + y)
  | _, _ => none

/-- Multiplication with NaN propagation. -/
def jMul (a b : JNum) : JNum :=
  match a, b with
  | some x, some y => some (x * y)
  | _, _ => none

/-- Division by a nonzero constant, with NaN propagation. -/
def jDivC (a : JNum) (c : ℚ) : JNum :=
  match a with
  | some x => some (x / c)
  | none => none

/-- Model of `Math.max`: NaN if either argument is NaN. -/
def jMax (a b : JNum) : JNum :=
  match a, b with
  | some x, some y => some (max x y)
  | _, _ => none

/-- Model of `Math.min`: NaN if either argument is NaN. -/
def jMin (a b : JNum) : JNum :=
  match a, b with
  | some x, some y => some (min x y)
  | _, _ => none

/-- JavaScript `a >= b`: false whenever either side is NaN. -/
def jGe (a b : JNum) : Bool :=
  match a, b with
  | some x, some y => decide (y ≤ x)
  | _, _ => false

/-- JavaScript `a < b`: false whenever either side is NaN. -/
def jLt (a b : JNum) : Bool :=
  match a, b with
  | some x, some y => decide (x < y)
  | _, _ => false

/-- JavaScript `x || d` for a number `x` and nonzero default `d`:
the default is taken when `x` is NaN or `0` (both falsy). -/
def jOr (a : JNum) (d : ℚ) : ℚ :=
  match a with
  | some x => if x = 0 then d else x
  | none => d

/-- Source helper `safeNum(n, fallback)` from `part_001`/`part_003`: the number when
finite, otherwise the fallback. -/
def safeNum (a : JNum) (fallback : ℚ) : ℚ :=
  match a with
  | some x => x
  | none => fallback

/-- JavaScript `String(x || d)` for an optional string field:
yields the default when the field is absent or the empty string. -/
def strOr (s : Option String) (d : String) : String :=
  match s with
  | some x => if x = "" then d else x
  | none => d

/-- Rounding to pennies: `Math.round(x*100)/100` and `x.toFixed(2)`
(JavaScript rounds half toward positive infinity; all money values here
are nonnegative). -/
def round2 (x : ℚ) : ℚ := (Rat.floor (x * 100 + 1/2) : ℚ) / 100

/-- Value of a hex digit. -/
def hexDigitVal (c : Char) : Option Nat :=
  if '0' ≤ c ∧ c ≤ '9' then some (c.toNat - 48)
  else if 'a' ≤ c ∧ c ≤ 'f' then some (c.toNat - 87)
  else if 'A' ≤ c ∧ c ≤ 'F' then some (c.toNat - 55)
  else none

/-- Byte-pair decoding of `Buffer.from(s, "hex")`: decoding stops at the
first character pair that is not two hex digits. -/
def hexDecodeAux : List Char → List Nat
  | c1 :: c2 :: rest =>
    match hexDigitVal c1, hexDigitVal c2 with
    | some h, some l => (16 * h + l) :: hexDecodeAux rest
    | _, _ => []
  | _ => []

/-- Model of `Buffer.from(s, "hex")` as a byte list. -/
def hexDecode (s : String) : List Nat := hexDecodeAux s.data

/-- Source helper `timingSafeEqualHex` (all variants): decode both hex strings, return
false on a length mismatch, otherwise compare with
`crypto.timingSafeEqual`, i.e. byte-for-byte equality. -/
def timingSafeEqualHex (a b : String) : Bool :=
  decide (hexDecode a = hexDecode b)

/-- Model of `Number(s)` on the decimal-integer strings the timestamp
header is expected to carry: an optional minus sign followed by digits.
(`Number` accepts further shapes; this model covers the fragment the
claims quantify over and returns `none`, standing for NaN, elsewhere.) -/
def digitsToNatAux : List Char → Nat → Option Nat
  | [], acc => some acc
  | c :: rest, acc =>
    if c.isDigit then digitsToNatAux rest (acc * 10 + (c.toNat - 48)) else none

/-- All-digit string to `Nat`, `none` if empty or not all digits. -/
def digitsToNat (cs : List Char) : Option Nat :=
  if cs.isEmpty then none else digitsToNatAux cs 0

/-- Model of `Number(s)` on decimal-integer strings (see `digitsToNat`). -/
def parseNum (s : String) : Option Int :=
  match s.data with
  | '-' :: rest => (digitsToNat rest).map (fun n => -(n : Int))
  | cs => (digitsToNat cs).map (fun n => (n : Int))

/-! A model of JSON values, `JSON.stringify` and `JSON.parse`

The JSON machinery itself lives in the platform (a collaborator of the
servers), not in the repository; it is modelled here because the second
and third servers in `server.js` feed `JSON.stringify(req.body)` to the
signature verifier, and deciding claim C2 requires comparing that
re-serialization against the bytes on the wire.  Numbers are modelled as
integers and strings without escape sequences, which covers the inputs
the claims are settled on. -/

/-- JSON values (numbers restricted to integers). -/
inductive JVal where
  | null : JVal
  | bool (b : Bool) : JVal
  | num (n : Int) : JVal
  | str (s : String) : JVal
  | arr (xs : List JVal) : JVal
  | obj (fields : List (String × JVal)) : JVal

/-- The character `{`. -/
def lbrace : Char := Char.ofNat 123

/-- The character `}`. -/
def rbrace : Char := Char.ofNat 125

/-- Escape a character for a JSON string literal. -/
def jsonEscapeChar (c : Char) : String :=
  if c = '"' then "\\\"" else if c = '\\' then "\\\\" else String.singleton c

/-- Quote a string as `JSON.stringify` does. -/
def jsonQuote (s : String) : String :=
  "\"" ++ String.join (s.data.map jsonEscapeChar) ++ "\""

mutual

/-- Model of `JSON.stringify` (no spacing argument). -/
def jsonStringify : JVal → String
  | .null => "null"
  | .bool true => "true"
  | .bool false => "false"
  | .num n => toString n
  | .str s => jsonQuote s
  | .arr xs => "[" ++ jsonStringifyList xs ++ "]"
  | .obj fs => String.singleton lbrace ++ jsonStringifyFields fs ++ String.singleton rbrace

/-- Comma-separated serialization of array elements. -/
def jsonStringifyList : List JVal → String
  | [] => ""
  | [x] => jsonStringify x
  | x :: y :: rest => jsonStringify x ++ "," ++ jsonStringifyList (y :: rest)

/-- Comma-separated serialization of object fields. -/
def jsonStringifyFields : List (String × JVal) → String
  | [] => ""
  | [(k, v)] => jsonQuote k ++ ":" ++ jsonStringify v
  | (k, v) :: f :: rest =>
    jsonQuote k ++ ":" ++ jsonStringify v ++ "," ++ jsonStringifyFields (f :: rest)

end

/-- Drop leading JSON whitespace. -/
def skipWs : List Char → List Char
  | c :: rest =>
    if c = ' ' ∨ c = '\t' ∨ c = '\n' ∨ c = '\r' then skipWs rest else c :: rest
  | [] => []

/-- Split off a maximal run of leading digits. -/
def takeDigits : List Char → (List Char × List Char)
  | [] => ([], [])
  | c :: rest =>
    if c.isDigit then
      let (ds, r) := takeDigits rest
      (c :: ds, r)
    else ([], c :: rest)

/-- Characters of a JSON string literal up to the closing quote
(escape sequences are not modelled). -/
def takeUntilQuote : List Char → Option (List Char × List Char)
  | [] => none
  | c :: rest =>
    if c = '"' then some ([], rest)
    else (takeUntilQuote rest).map (fun p => (c :: p.1, p.2))

mutual

/-- Fuel-indexed recursive-descent `JSON.parse`, value position. -/
def parseJsonVal : Nat → List Char → Option (JVal × List Char)
  | 0, _ => none
  | Nat.succ fuel, cs0 =>
    match skipWs cs0 with
    | [] => none
    | c :: rest =>
      if c = 'n' then
        match rest with
        | 'u' :: 'l' :: 'l' :: r => some (.null, r)
        | _ => none
      else if c = 't' then
        match rest with
        | 'r' :: 'u' :: 'e' :: r => some (.bool true, r)
        | _ => none
      else if c = 'f' then
        match rest with
        | 'a' :: 'l' :: 's' :: 'e' :: r => some (.bool false, r)
        | _ => none
      else if c = '"' then
        match takeUntilQuote rest with
        | some (s, r) => some (.str (String.mk s), r)
        | none => none
      else if c = '-' then
        match takeDigits rest with
        | ([], _) => none
        | (ds, r) => (digitsToNat ds).map (fun n => (.num (-(n : Int)), r))
      else if c.isDigit then
        match takeDigits (c :: rest) with
        | (ds, r) => (digitsToNat ds).map (fun n => (.num (n : Int), r))
      else if c = '[' then
        match skipWs rest with
        | ']' :: r => some (.arr [], r)
        | cs2 => (parseJsonArr fuel cs2).map (fun p => (.arr p.1, p.2))
      else if c = lbrace then
        match skipWs rest with
        | d :: r =>
          if d = rbrace then some (.obj [], r)
          else (parseJsonObj fuel (d :: r)).map (fun p => (.obj p.1, p.2))
        | [] => none
      else none

/-- Array elements, positioned at the start of a value. -/
def parseJsonArr : Nat → List Char → Option (List JVal × List Char)
  | 0, _ => none
  | Nat.succ fuel, cs =>
    match parseJsonVal fuel cs with
    | none => none
    | some (v, r) =>
      match skipWs r with
      | ',' :: r2 => (parseJsonArr fuel r2).map (fun p => (v :: p.1, p.2))
      | ']' :: r2 => some ([v], r2)
      | _ => none

/-- Object fields, positioned at the start of a key. -/
def parseJsonObj : Nat → List Char → Option (List (String × JVal) × List Char)
  | 0, _ => none
  | Nat.succ fuel, cs =>
    match skipWs cs with
    | '"' :: rest =>
      match takeUntilQuote rest with
      | none => none
      | some (k, r) =>
        match skipWs r with
        | ':' :: r2 =>
          match parseJsonVal fuel r2 with
          | none => none
          | some (v, r3) =>
            match skipWs r3 with
            | ',' :: r4 => (parseJsonObj fuel r4).map (fun p => ((String.mk k, v) :: p.1, p.2))
            | d :: r4 =>
              if d = rbrace then some ([(String.mk k, v)], r4) else none
            | [] => none
        | _ => none
    | _ => none

end

/-- Model of `JSON.parse` of a whole input string. -/
def jsonParse (s : String) : Option JVal :=
  match parseJsonVal (s.length + 1) s.data with
  | some (j, rest) => if skipWs rest = [] then some j else none
  | none => none

/-! V1: the first server in `server.js` (lines 1–353)

Raw-body capture via the `express.json` verify callback, Stage-1 DGU
pricing, dimension clamping, the 2.5 m² area-upgrade rule, and a
checkout handler that rejects with 422 only when the rounded gross
total is ≤ 0. -/

namespace V1

/-- Untrusted unit record as sent by the calculator (`raw` in
`normalizeUnit`): absent or non-numeric numeric fields are `none`,
absent string fields are `none`. -/
structure RawUnit where
  qty : JNum
  outerGlass : Option String
  innerGlass : Option String
  cavityWidth : Option String
  selfCleaning : Option String
  spacer : Option String
  widthMm : JNum
  heightMm : JNum
deriving DecidableEq

/-- Normalized unit (the object literal built in `normalizeUnit`,
after `applyAreaRule` has attached `_areaUpgradeApplied`). -/
structure GlassUnit where
  qty : ℚ
  outerGlass : String
  innerGlass : String
  cavityWidth : String
  selfCleaning : String
  spacer : String
  widthMm : JNum
  heightMm : JNum
  toughened : String
  areaUpgradeApplied : Bool
deriving DecidableEq

/-- Source function `clampDims(w, h)`: min 150, maxW 2000, maxH 3000 (NaN stays NaN). -/
def clampDims (w h : JNum) : JNum × JNum :=
  (jMin (some 2000) (jMax (some 150) w), jMin (some 3000) (jMax (some 150) h))

/-- The area `areaM2 = widthMm * heightMm / 1_000_000` of a unit. -/
def areaM2 (u : GlassUnit) : JNum := jDivC (jMul u.widthMm u.heightMm) 1000000

/-- Source function `applyAreaRule(unit)`: at or above 2.5 m² with both panes
"4mm Clear", upgrade both panes to "6mm Clear" and flag the upgrade;
otherwise return the unit unchanged with the flag false. -/
def applyAreaRule (u : GlassUnit) : GlassUnit :=
  if jGe (areaM2 u) (some (5/2)) && (u.outerGlass == "4mm Clear")
      && (u.innerGlass == "4mm Clear") then
    { u with outerGlass := "6mm Clear", innerGlass := "6mm Clear", areaUpgradeApplied := true }
  else
    { u with areaUpgradeApplied := false }

/-- Source function `normalizeUnit(raw)`: clamp dimensions, default string fields,
clamp the quantity into [1, 10], then apply the area rule. -/
def normalizeUnit (raw : RawUnit) : GlassUnit :=
  let wh := clampDims raw.widthMm raw.heightMm
  applyAreaRule
    { qty := min 10 (max 1 (jOr raw.qty 1))
      outerGlass := strOr raw.outerGlass ""
      innerGlass := strOr raw.innerGlass ""
      cavityWidth := strOr raw.cavityWidth ""
      selfCleaning := strOr raw.selfCleaning "No"
      spacer := strOr raw.spacer ""
      widthMm := wh.1
      heightMm := wh.2
      toughened := "Yes"
      areaUpgradeApplied := false }

/-- Source function `calcUnitPriceIncVat(unit)`: only the Stage-1 configuration
(outer = inner = "4mm Clear", selfCleaning "No") is priced, at
`max(72.07, areaM2 * 150) + (widthMm + heightMm) * 0.002`; everything
else returns 0 ("unpriced until more stages added"). -/
def calcUnitPriceIncVat (u : GlassUnit) : ℚ :=
  match u.widthMm, u.heightMm with
  | some w, some h =>
    if w ≤ 0 ∨ h ≤ 0 then 0
    else if u.outerGlass = "4mm Clear" ∧ u.innerGlass = "4mm Clear"
        ∧ u.selfCleaning = "No" then
      let area := w * h / 1000000
      max (7207/100) (area * 150) + (w + h) * (2/1000)
    else 0
  | _, _ => 0

/-- Outcome of the `POST /checkout` handler, up to the draft-order
creation call: `create` records the priced units (each paired with its
`_unitPriceIncVat`) together with the rounded gross total and VAT that
go into the draft order. -/
inductive Outcome where
  | missingUnits400 : Outcome
  | unpriced422 : Outcome
  | create (priced : List (GlassUnit × ℚ)) (gross vat : ℚ) : Outcome
deriving DecidableEq

end V1

namespace V1

/-- The `POST /checkout` handler after a verified signature and a
present `units` array: normalize each unit, price it
(`u._unitPriceIncVat = calcUnitPriceIncVat(u)`), accumulate
`grossTotal += unitPrice * qty`, round once at the end, reject with 422
when `grossTotal <= 0`, otherwise build the draft order from the priced
units with `vat = round2(grossTotal / 6)`. -/
def checkout (unitsRaw : List RawUnit) : Outcome :=
  if unitsRaw.isEmpty then .missingUnits400
  else
    let priced := unitsRaw.map (fun raw =>
      let u := normalizeUnit raw
      (u, calcUnitPriceIncVat u))
    let grossTotal := round2 (priced.foldl (fun s p => s + p.2 * p.1.qty) 0)
    if grossTotal ≤ 0 then .unpriced422
    else .create priced grossTotal (round2 (grossTotal / 6))

/-- Whether the handler reached the draft-order-creation call. -/
def Outcome.created : Outcome → Bool
  | .create _ _ _ => true
  | _ => false

/-- Whether a created order carries a unit priced at exactly 0. -/
def Outcome.hasZeroPricedUnit : Outcome → Bool
  | .create priced _ _ => priced.any (fun p => p.2 == 0)
  | _ => false

end V1

/-! V2: the second server in `server.js` (lines 354–620)

No raw-body capture: the checkout handler feeds
`JSON.stringify(req.body ?? {})` to `verifyHmac`, and prefers a
client-supplied `grandTotal` over the sum of the units' line totals. -/

namespace V2

/-- A unit of the incoming payload, restricted to the fields the
claims touch. -/
structure PayloadUnit where
  qty : JNum
  unitPrice : JNum
  lineTotal : JNum
deriving DecidableEq

/-- Source function `roundMoney(n)`: 0 for non-finite input, otherwise
`Math.round(n*100)/100`. -/
def roundMoney (n : JNum) : ℚ :=
  match n with
  | some x => round2 x
  | none => 0

/-- The message handed to the HMAC by the `POST /checkout` handler:
`rawBody = JSON.stringify(req.body ?? {})` and
`payload = timestamp ++ "." ++ rawBody` inside `verifyHmac`. -/
def hmacMessage (timestamp : String) (body : JVal) : String :=
  let rawBody := jsonStringify body
  timestamp ++ "." ++ rawBody

/-- Source function `sumLineTotals(units)`: sum of `Number(u.lineTotal) || 0`,
rounded to pennies. -/
def sumLineTotals (units : List PayloadUnit) : ℚ :=
  roundMoney (some (units.foldl (fun sum u => sum + jOr u.lineTotal 0) 0))

/-- The handler's grand-total selection: "Prefer grandTotal sent by
frontend, fallback to summing line totals". -/
def grandTotalSelection (bodyGrandTotal : JNum) (units : List PayloadUnit) : ℚ :=
  let providedGrand := roundMoney bodyGrandTotal
  let computedGrand := sumLineTotals units
  if providedGrand > 0 then providedGrand else computedGrand

end V2

/-! V3: the third server in `server.js` (lines 621–967)

Like V2 it verifies the signature against `JSON.stringify(req.body)`;
its `buildLineItemsFromPayload` clamps each line item's quantity with
`Math.max(1, Math.min(100, Number(u?.qty) || 1))`. -/

namespace V3

/-- The message handed to the HMAC: the handler computes
`rawBody = JSON.stringify(req.body ?? {})` and `verifySignedBody`
signs `ts ++ "." ++ rawBody`. -/
def hmacMessage (timestamp : String) (body : JVal) : String :=
  let rawBody := jsonStringify body
  timestamp ++ "." ++ rawBody

/-- Per-line-item quantity computed in `buildLineItemsFromPayload`:
`Math.max(1, Math.min(100, Number(u?.qty) || 1))`. -/
def lineItemQty (qty : JNum) : ℚ :=
  max 1 (min 100 (jOr qty 1))

end V3

/-! P1: the server `part_001`. -/

namespace P1

/-- Per-line-item quantity computed in `buildDraftOrderLineItems`:
`Math.max(1, Math.min(10, Math.floor(safeNum(u.qty, 1))))`. -/
def lineItemQty (qty : JNum) : ℚ :=
  max 1 (min 10 ((Rat.floor (safeNum qty 1) : ℚ)))

end P1

/-! P0: the server `part_000`.

Raw body captured by `express.raw` and re-parsed by `parseJsonRaw`, a
`verifyHmac` with the `missing_headers` / `bad_timestamp` /
`timestamp_skew` / `bad_signature` reason taxonomy, and bounded
invoice-URL polling (`fetchInvoiceUrlWithRetry`). -/

namespace P0

/-- Result record `{ ok, reason }` returned by `verifyHmac`. -/
structure VerifyOutcome where
  ok : Bool
  reason : Option String
deriving DecidableEq

/-- Source function `verifyHmac({secret, timestamp, rawBody, signatureHex, maxSkewMs})`.
The HMAC itself is the opaque `hmac` parameter (it stands for
`crypto.createHmac("sha256", secret).update(toSign).digest("hex")`);
`now` stands for `Date.now()`.  Empty header strings model absent
headers (both are falsy). -/
def verifyHmac (hmac : String → String) (now maxSkewMs : Int)
    (timestamp signatureHex rawBody : String) : VerifyOutcome :=
  if timestamp = "" ∨ signatureHex = "" then ⟨false, some "missing_headers"⟩
  else
    match parseNum timestamp with
    | none => ⟨false, some "bad_timestamp"⟩
    | some tsNum =>
      if maxSkewMs < |now - tsNum| then ⟨false, some "timestamp_skew"⟩
      else
        let toSign := timestamp ++ "." ++ rawBody
        if timingSafeEqualHex (hmac toSign) signatureHex then ⟨true, none⟩
        else ⟨false, some "bad_signature"⟩

/-- Source function `parseJsonRaw(buf)`: keep the exact received string as `raw` and
parse it (`s ? JSON.parse(s) : {}`); `none` is the `bad_json` branch. -/
def parseJsonRaw (buf : String) : Option (String × JVal) :=
  if buf = "" then some (buf, JVal.obj [])
  else
    match jsonParse buf with
    | some j => some (buf, j)
    | none => none

/-- Source expression `computedGrandTotal`: `units.reduce((sum, u) => sum + (Number(u.lineTotal) || 0), 0)`. -/
def computedGrandTotal (lineTotals : List JNum) : ℚ :=
  lineTotals.foldl (fun sum lt => sum + jOr lt 0) 0

/-- The handler's grand-total selection (lines 289–291):
`Number.isFinite(payloadGrandTotal) ? payloadGrandTotal : computedGrandTotal`. -/
def grandTotalSelection (payloadGrandTotal : JNum) (lineTotals : List JNum) : ℚ :=
  match payloadGrandTotal with
  | some g => g
  | none => computedGrandTotal lineTotals

/-- Trace of one run of the polling loop in `fetchInvoiceUrlWithRetry`:
the returned URL, the number of GraphQL fetches made, and the total
number of milliseconds slept. -/
structure RetryTrace where
  url : Option String
  calls : Nat
  sleptMs : Nat
deriving DecidableEq

/-- The polling loop of `fetchInvoiceUrlWithRetry`, starting at attempt
index `i` with `fuel` attempts left.  `oracle k` is the collaborator's
`data?.draftOrder?.invoiceUrl` for attempt `k`, with `""` standing for
a missing/empty URL (`|| null`).  Each failed attempt sleeps `delayMs`
before the next. -/
def retryAux (oracle : Nat → String) (delayMs : Nat) : Nat → Nat → RetryTrace
  | _, 0 => ⟨none, 0, 0⟩
  | i, Nat.succ fuel =>
    let url := oracle i
    if url = "" then
      let t := retryAux oracle delayMs (i + 1) fuel
      ⟨t.url, t.calls + 1, t.sleptMs + delayMs⟩
    else ⟨some url, 1, 0⟩

/-- Source function `fetchInvoiceUrlWithRetry(draftOrderGid, attempts, delayMs)`:
run the polling loop from attempt 0; returns `none` (the source's
`null`) when every attempt came back empty. -/
def fetchInvoiceUrlWithRetry (oracle : Nat → String) (attempts delayMs : Nat) : RetryTrace :=
  retryAux oracle delayMs 0 attempts

/-- The `draftOrder { id invoiceUrl }` part of the creation response;
`invoiceUrl = ""` models a null/absent URL. -/
structure DraftOrderInfo where
  id : String
  invoiceUrl : String
deriving DecidableEq

/-- The payload `data?.draftOrderCreate`: the user errors and the created order. -/
structure DraftCreatePayload where
  userErrors : List String
  draftOrder : Option DraftOrderInfo
deriving DecidableEq

/-- Responses the tail of the `POST /checkout` handler can produce. -/
inductive Resp where
  | userErrors400 (errs : List String) : Resp
  | missingInvoice502 (reason : String) (draftOrderId : Option String) : Resp
  | ok200 (invoiceUrl : String) (draftOrderId : Option String) : Resp
deriving DecidableEq

/-- The tail of the `POST /checkout` handler, after `draftOrderCreate`
returned `p`: surface user errors as 400; otherwise take
`draftOrder?.invoiceUrl || null`, poll
`fetchInvoiceUrlWithRetry(draftOrderId, 10, 250)` when it is null but
an order id exists, and answer 502 with reason `"invoiceUrl_null"` and
the order id when the URL is still missing. -/
def finishCheckout (p : DraftCreatePayload) (oracle : Nat → String) : Resp :=
  if p.userErrors ≠ [] then .userErrors400 p.userErrors
  else
    let draftOrderId := p.draftOrder.map DraftOrderInfo.id
    let invoiceUrl0 : Option String :=
      match p.draftOrder with
      | some d => if d.invoiceUrl = "" then none else some d.invoiceUrl
      | none => none
    let invoiceUrl : Option String :=
      match invoiceUrl0, draftOrderId with
      | none, some _ => (fetchInvoiceUrlWithRetry oracle 10 250).url
      | u, _ => u
    match invoiceUrl with
    | none => .missingInvoice502 "invoiceUrl_null" draftOrderId
    | some u => .ok200 u draftOrderId

end P0

/-! P2: the server `part_002` (HMAC code shared verbatim with `part_004`).

Banded DGU pricing tables, skylight validation, and a
`verifyFrontendSignature` that reads `req.rawBody.toString("utf8")`
without guarding against a missing `rawBody`. -/

namespace P2

/-- One pricing band `{ min, max, rate }`. -/
structure Band where
  min : ℚ
  max : ℚ
  rate : ℚ
deriving DecidableEq

/-- Source function `bandRate(areaM2, bands)`: the rate of the first band containing
the area (inclusive on both ends), 0 when none does. -/
def bandRate (areaM2 : ℚ) : List Band → ℚ
  | [] => 0
  | b :: rest => if b.min ≤ areaM2 ∧ areaM2 ≤ b.max then b.rate else bandRate areaM2 rest

/-- One `PRICING_TABLES` entry `{ minPrice, bands }`. -/
structure PriceTable where
  minPrice : ℚ
  bands : List Band
deriving DecidableEq

/-- The `PRICING_TABLES` object, keyed by `outerGlass + "|" + innerGlass`. -/
def PRICING_TABLES (key : String) : Option PriceTable :=
  if key = "4mm Clear|4mm Clear" then
    some ⟨4875/100,
      [⟨0, 99/100, 125⟩, ⟨1, 149/100, 130⟩, ⟨15/10, 199/100, 135⟩, ⟨2, 25/10, 140⟩]⟩
  else if key = "4mm Clear|4mm Softcoat" then
    some ⟨4875/100,
      [⟨0, 49/100, 130⟩, ⟨5/10, 99/100, 132⟩, ⟨1, 149/100, 138⟩,
       ⟨15/10, 199/100, 145⟩, ⟨2, 25/10, 152⟩]⟩
  else if key = "6mm Clear|6mm Clear" then
    some ⟨9575/100,
      [⟨0, 49/100, 215⟩, ⟨5/10, 99/100, 255⟩, ⟨1, 149/100, 260⟩,
       ⟨15/10, 199/100, 262⟩, ⟨2, 25/10, 265⟩, ⟨251/100, 3, 270⟩]⟩
  else if key = "6mm Clear|6mm Softcoat" then
    some ⟨12775/100,
      [⟨0, 49/100, 225⟩, ⟨5/10, 99/100, 270⟩, ⟨1, 149/100, 278⟩,
       ⟨15/10, 199/100, 282⟩, ⟨2, 25/10, 285⟩, ⟨251/100, 3, 290⟩]⟩
  else none

/-- Source table `SELF_CLEAN_BANDS`: the banded surcharge rates for self-cleaning glass. -/
def SELF_CLEAN_BANDS : List Band :=
  [⟨0, 49/100, 30⟩, ⟨5/10, 99/100, 38⟩, ⟨1, 149/100, 42⟩,
   ⟨15/10, 199/100, 45⟩, ⟨2, 25/10, 48⟩, ⟨251/100, 3, 52⟩]

/-- A (normalized) DGU unit, restricted to the fields
`calcUnitPriceIncVatDGU` reads. -/
structure DguUnit where
  outerGlass : String
  innerGlass : String
  selfCleaning : String
  widthMm : JNum
  heightMm : JNum
deriving DecidableEq

/-- Source function `calcUnitPriceIncVatDGU(unit)`: 0 on non-finite or non-positive
dimensions, a missing table key, or a missing band; otherwise
`max(table.minPrice, areaM2*baseRate + areaM2*selfRate)` where
`selfRate` is the self-cleaning band rate when `selfCleaning === "Yes"`
and 0 otherwise. -/
def calcUnitPriceIncVatDGU (u : DguUnit) : ℚ :=
  match u.widthMm, u.heightMm with
  | some w, some h =>
    if w ≤ 0 ∨ h ≤ 0 then 0
    else
      let areaM2 := w * h / 1000000
      match PRICING_TABLES (u.outerGlass ++ "|" ++ u.innerGlass) with
      | none => 0
      | some table =>
        let baseRate := bandRate areaM2 table.bands
        if baseRate = 0 then 0
        else
          let selfRate := if u.selfCleaning = "Yes" then bandRate areaM2 SELF_CLEAN_BANDS else 0
          max table.minPrice (areaM2 * baseRate + areaM2 * selfRate)
  | _, _ => 0

/-- Claim C3 as the spec words it (`price = max(minimumPrice,
areaM2 × bandRate)`, and the self-cleaning surcharge
`areaM2 × selfCleaningBandRate` "is added to that floored price"):
the floor is applied before the surcharge.  Stated only for units whose
pair and band exist, like the claim; kept for comparison with
`calcUnitPriceIncVatDGU`. -/
def specDguPriceFloorThenSurcharge (u : DguUnit) : Option ℚ :=
  match u.widthMm, u.heightMm with
  | some w, some h =>
    if w ≤ 0 ∨ h ≤ 0 then none
    else
      let areaM2 := w * h / 1000000
      match PRICING_TABLES (u.outerGlass ++ "|" ++ u.innerGlass) with
      | none => none
      | some table =>
        let baseRate := bandRate areaM2 table.bands
        if baseRate = 0 then none
        else
          let selfSurcharge :=
            if u.selfCleaning = "Yes" then areaM2 * bandRate areaM2 SELF_CLEAN_BANDS else 0
          some (max table.minPrice (areaM2 * baseRate) + selfSurcharge)
  | _, _ => none

/-- The raw skylight payload of one unit (`raw?.internal?.widthMm` etc.;
`none` models missing/non-numeric fields, which `toNum` turns into NaN). -/
structure SkyRaw where
  qty : JNum
  unitStrength : Option String
  glazing : Option String
  borderMm : JNum
  solarControl : Option String
  tint : Option String
  selfCleaning : Option String
  internalWidthMm : JNum
  internalHeightMm : JNum
  externalWidthMm : JNum
  externalHeightMm : JNum
  unitPrice : JNum
  lineTotal : JNum
deriving DecidableEq

/-- The normalized skylight unit built by `normalizeUnitSkylight`. -/
structure SkyUnit where
  qty : ℚ
  unitStrength : String
  glazing : String
  borderMm : JNum
  solarControl : String
  tint : String
  selfCleaning : String
  internalW : JNum
  internalH : JNum
  externalW : JNum
  externalH : JNum
  unitPrice : JNum
  lineTotal : JNum
deriving DecidableEq

/-- Source function `normalizeUnitSkylight(raw)`: clamp only the quantity into [1, 10];
every dimension is passed through `toNum` unchanged (no clamping). -/
def normalizeUnitSkylight (raw : SkyRaw) : SkyUnit :=
  { qty := min 10 (max 1 (jOr raw.qty 1))
    unitStrength := strOr raw.unitStrength ""
    glazing := strOr raw.glazing ""
    borderMm := raw.borderMm
    solarControl := strOr raw.solarControl ""
    tint := strOr raw.tint ""
    selfCleaning := strOr raw.selfCleaning ""
    internalW := raw.internalWidthMm
    internalH := raw.internalHeightMm
    externalW := raw.externalWidthMm
    externalH := raw.externalHeightMm
    unitPrice := raw.unitPrice
    lineTotal := raw.lineTotal }

/-- Source function `approxEqualMoney(a, b, tolerancePounds)`. -/
def approxEqualMoney (a b tolerancePounds : ℚ) : Bool :=
  decide (|a - b| ≤ tolerancePounds)

/-- Source function `validateSkylightUnit(u)`: internal dimensions finite and inside
[300, 2000] × [300, 1200]; a width beyond 1800 requires height ≥ 600;
internal area positive and at most 3 m² (3,000,000 mm²); positive
finite unit price and line total; and the line total must match
`unitPrice * qty` within £0.10. -/
def validateSkylightUnit (u : SkyUnit) : Bool :=
  match u.internalW, u.internalH with
  | some w, some h =>
    if w < 300 ∨ w > 2000 then false
    else if h < 300 ∨ h > 1200 then false
    else if w > 1800 ∧ h < 600 then false
    else
      let areaMm2 := w * h
      if ¬(areaMm2 > 0) ∨ areaMm2 > 3000000 then false
      else
        match u.unitPrice with
        | none => false
        | some up =>
          if up ≤ 0 then false
          else
            match u.lineTotal with
            | none => false
            | some lt =>
              if lt ≤ 0 then false
              else approxEqualMoney lt (up * u.qty) (1/10)
  | _, _ => false

/-- The validation/accumulation loop of the skylight branch: walk the
normalized units, rejecting (`none`) at the first one failing
`validateSkylightUnit`, accumulating `totalUnits += qty` and
`grandTotal += lineTotal` otherwise. -/
def skylightLoop : List SkyUnit → ℚ → ℚ → Option (ℚ × ℚ)
  | [], totalUnits, grandTotal => some (totalUnits, grandTotal)
  | u :: rest, totalUnits, grandTotal =>
    if validateSkylightUnit u then
      skylightLoop rest (totalUnits + u.qty) (grandTotal + jOr u.lineTotal 0)
    else none

/-- Outcome of the skylight branch of the `POST /checkout` handler, up
to the draft-order-creation call. -/
inductive SkyOutcome where
  | missingUnits400 : SkyOutcome
  | unpriced422 : SkyOutcome
  | create (grandTotal totalUnits : ℚ) : SkyOutcome
deriving DecidableEq

/-- The skylight branch of the `POST /checkout` handler (after a
verified signature): missing/empty units give 400; an invalid unit
gives 422 ("Unpriced configuration"); otherwise the grand total is
rounded to pennies and, when both totals are positive, the draft order
is created. -/
def skylightCheckout (unitsRaw : List SkyRaw) : SkyOutcome :=
  if unitsRaw.isEmpty then .missingUnits400
  else
    match skylightLoop (unitsRaw.map normalizeUnitSkylight) 0 0 with
    | none => .unpriced422
    | some (totalUnits, g0) =>
      let grandTotal := round2 g0
      if grandTotal > 0 ∧ totalUnits > 0 then .create grandTotal totalUnits
      else .unpriced422

/-- The request data `verifyFrontendSignature` and the handler prefix
read: empty header strings model absent headers; `rawBody = none`
models the case where the `express.json` verify callback never ran
(no body / non-JSON content type), leaving `req.rawBody` undefined. -/
structure Req where
  origin : String
  tsHeader : String
  sigHeader : String
  rawBody : Option String
deriving DecidableEq

/-- Source function `verifyFrontendSignature(req)`: missing headers give `false`;
otherwise `req.rawBody.toString("utf8")` is read with no guard — when
`rawBody` is undefined this throws a TypeError, modelled by `.error ()`.
With a raw body present, the hex HMAC of `ts ++ "." ++ raw` is compared
against the signature header. -/
def verifyFrontendSignature (hmac : String → String) (req : Req) : Except Unit Bool :=
  if req.tsHeader = "" ∨ req.sigHeader = "" then .ok false
  else
    match req.rawBody with
    | none => .error ()
    | some raw =>
      let payload := req.tsHeader ++ "." ++ raw
      .ok (timingSafeEqualHex req.sigHeader (hmac payload))

/-- How far the `POST /checkout` handler prefix gets. -/
inductive AuthOutcome where
  | forbidden403 : AuthOutcome
  | serverError500 : AuthOutcome
  | unauthorized401 : AuthOutcome
  | authenticated : AuthOutcome
deriving DecidableEq

/-- The prefix of the `POST /checkout` handler: the origin gate, then
`verifyFrontendSignature` inside the `try` block, whose exception falls
through to the catch-all `res.status(500).json({ error: "Server error" })`. -/
def checkoutAuth (allowedOrigin : String) (hmac : String → String) (req : Req) : AuthOutcome :=
  if req.origin ≠ allowedOrigin then .forbidden403
  else
    match verifyFrontendSignature hmac req with
    | .error _ => .serverError500
    | .ok false => .unauthorized401
    | .ok true => .authenticated

end P2

/-! Concrete inputs used by the witnesses and counterexamples. -/

/-- A Stage-1 priced DGU payload unit: 4mm Clear / 4mm Clear, no
self-cleaning, 1000 mm × 1000 mm, quantity 1. -/
def c1PricedRaw : V1.RawUnit :=
  { qty := some 1, outerGlass := some "4mm Clear", innerGlass := some "4mm Clear"
    cavityWidth := some "20mm", selfCleaning := some "No", spacer := some "Black"
    widthMm := some 1000, heightMm := some 1000 }

/-- The same unit but with self-cleaning "Yes" — a configuration the
V1 engine leaves unpriced (price 0). -/
def c1UnpricedRaw : V1.RawUnit :=
  { qty := some 1, outerGlass := some "4mm Clear", innerGlass := some "4mm Clear"
    cavityWidth := some "20mm", selfCleaning := some "Yes", spacer := some "Black"
    widthMm := some 1000, heightMm := some 1000 }

/-- The wire bytes of a signed request body: the empty JSON object
written with an interior space, which `JSON.stringify` does not emit. -/
def rawWireBody : String := "\x7b \x7d"

/-- A self-cleaning 300 mm × 300 mm DGU unit whose pair and band exist
in `P2.PRICING_TABLES` (area 0.09 m², first band, rate 125). -/
def c3Unit : P2.DguUnit :=
  { outerGlass := "4mm Clear", innerGlass := "4mm Clear", selfCleaning := "Yes"
    widthMm := some 300, heightMm := some 300 }

/-- An opaque stand-in HMAC used by witnesses. -/
def wHmac (message : String) : String := message

/-- A normalized 2000 mm × 1500 mm unit (3.0 m²) with base-tier glass. -/
def c7LargeUnit : V1.GlassUnit :=
  { qty := 1, outerGlass := "4mm Clear", innerGlass := "4mm Clear"
    cavityWidth := "20mm", selfCleaning := "No", spacer := "Black"
    widthMm := some 2000, heightMm := some 1500, toughened := "Yes"
    areaUpgradeApplied := false }

/-- A normalized 1000 mm × 1000 mm unit (1.0 m²) with base-tier glass. -/
def c7SmallUnit : V1.GlassUnit :=
  { qty := 1, outerGlass := "4mm Clear", innerGlass := "4mm Clear"
    cavityWidth := "20mm", selfCleaning := "No", spacer := "Black"
    widthMm := some 1000, heightMm := some 1000, toughened := "Yes"
    areaUpgradeApplied := false }

/-- A skylight unit 1900 mm wide but only 500 mm high (within the
rectangular bounds, violating the wide rule), otherwise priced sanely. -/
def c8BadSkyRaw : P2.SkyRaw :=
  { qty := some 1, unitStrength := some "Standard", glazing := some "Double"
    borderMm := some 50, solarControl := some "No", tint := some "Clear"
    selfCleaning := some "No", internalWidthMm := some 1900
    internalHeightMm := some 500, externalWidthMm := some 2000
    externalHeightMm := some 600, unitPrice := some 500, lineTotal := some 500 }

/-- An invoice-URL oracle that never returns a URL. -/
def emptyOracle : Nat → String := fun _ => ""

/-- A creation payload with no user errors, an order id, and a null
invoice URL. -/
def c9Payload : P0.DraftCreatePayload :=
  { userErrors := [], draftOrder := some ⟨"gid-draft-1", ""⟩ }

/-- A request hitting `P2.verifyFrontendSignature` with both signature
headers present but no captured raw body. -/
def c10CrashReq : P2.Req :=
  { origin := "https://shop.example", tsHeader := "1700000000000"
    sigHeader := "abcd", rawBody := none }

/-- The same request with an (empty) raw body and a bad signature. -/
def c10BadSigReq : P2.Req :=
  { origin := "https://shop.example", tsHeader := "1700000000000"
    sigHeader := "abcd", rawBody := some "" }

/-! Theorems settling the claims. -/

set_option maxRecDepth 8000

/-- JavaScript comparison: a strict `a < b` forces `a >= b` to be false. -/
theorem jGe_eq_false_of_jLt (a b : JNum) (h : jLt a b = true) : jGe a b = false := by
  cases a with
  | none => rfl
  | some x =>
    cases b with
    | none => rfl
    | some y =>
      simp only [jLt, decide_eq_true_eq] at h
      simp only [jGe, decide_eq_false_iff_not]
      exact not_le_of_lt h

/-- The function `applyAreaRule` never changes the quantity. -/
theorem V1.applyAreaRule_qty (u : V1.GlassUnit) : (V1.applyAreaRule u).qty = u.qty := by
  unfold V1.applyAreaRule
  split <;> rfl

/-- C7: for every DGU unit, if its area (widthMm×heightMm/1e6) is at
least 2.5 m² and both panes are "4mm Clear", `applyAreaRule` replaces
both panes with "6mm Clear" and sets the upgrade flag; if its area is
below 2.5 m², the panes are unchanged and the flag is false. -/
theorem c7_dgu_area_upgrade_rule (u : V1.GlassUnit) :
    (jGe (V1.areaM2 u) (some (5/2)) = true → u.outerGlass = "4mm Clear" →
      u.innerGlass = "4mm Clear" →
      (V1.applyAreaRule u).outerGlass = "6mm Clear" ∧
      (V1.applyAreaRule u).innerGlass = "6mm Clear" ∧
      (V1.applyAreaRule u).areaUpgradeApplied = true)
  ∧ (jLt (V1.areaM2 u) (some (5/2)) = true →
      (V1.applyAreaRule u).outerGlass = u.outerGlass ∧
      (V1.applyAreaRule u).innerGlass = u.innerGlass ∧
      (V1.applyAreaRule u).areaUpgradeApplied = false) := by
  constructor
  · intro hge ho hi
    unfold V1.applyAreaRule
    rw [if_pos]
    · exact ⟨rfl, rfl, rfl⟩
    · simp [hge, ho, hi]
  · intro hlt
    unfold V1.applyAreaRule
    rw [if_neg]
    · exact ⟨rfl, rfl, rfl⟩
    · simp [jGe_eq_false_of_jLt _ _ hlt]

/-- Witness for C7: a 3.0 m² base-tier unit is upgraded, a 1.0 m²
base-tier unit is left unchanged. -/
theorem c7_witness :
    ((V1.applyAreaRule c7LargeUnit).outerGlass = "6mm Clear" ∧
     (V1.applyAreaRule c7LargeUnit).innerGlass = "6mm Clear" ∧
     (V1.applyAreaRule c7LargeUnit).areaUpgradeApplied = true)
  ∧ ((V1.applyAreaRule c7SmallUnit).outerGlass = c7SmallUnit.outerGlass ∧
     (V1.applyAreaRule c7SmallUnit).innerGlass = c7SmallUnit.innerGlass ∧
     (V1.applyAreaRule c7SmallUnit).areaUpgradeApplied = false) :=
  ⟨(c7_dgu_area_upgrade_rule c7LargeUnit).1 (by with_unfolding_all decide) rfl rfl,
   (c7_dgu_area_upgrade_rule c7SmallUnit).2 (by with_unfolding_all decide)⟩

/-- C6, counterexample: the line-item quantity computed by
`buildLineItemsFromPayload` in the third server of `server.js` for a
raw quantity of 50 is 50, which violates the claimed [1, 10] bound. -/
theorem c6_counterexample_qty_clamp :
    V3.lineItemQty (some 50) = 50 ∧ ¬ V3.lineItemQty (some 50) ≤ 10 := by
  constructor
  · with_unfolding_all decide
  · with_unfolding_all decide

/-- C6, amended: `normalizeUnit` (first server) and
`buildDraftOrderLineItems` (`part_001`) clamp the quantity into
[1, 10], but `buildLineItemsFromPayload` (third server) clamps the
line-item quantity only into [1, 100], so line items sent to the
platform are merely guaranteed a quantity in [1, 100]. -/
theorem c6_amended_qty_bounds (raw : V1.RawUnit) (q : JNum) :
    (1 ≤ (V1.normalizeUnit raw).qty ∧ (V1.normalizeUnit raw).qty ≤ 10)
  ∧ (1 ≤ P1.lineItemQty q ∧ P1.lineItemQty q ≤ 10)
  ∧ (1 ≤ V3.lineItemQty q ∧ V3.lineItemQty q ≤ 100) := by
  refine ⟨?_, ⟨?_, ?_⟩, ⟨?_, ?_⟩⟩
  · have hq : (V1.normalizeUnit raw).qty = min 10 (max 1 (jOr raw.qty 1)) :=
      V1.applyAreaRule_qty _
    rw [hq]
    constructor
    · exact le_min (by norm_num) (le_max_left _ _)
    · exact min_le_left _ _
  · exact le_max_left _ _
  · exact max_le (by norm_num) (min_le_left _ _)
  · exact le_max_left _ _
  · exact max_le (by norm_num) (min_le_left _ _)

/-- C1: evaluating the first server's checkout handler on a two-unit
request whose second unit is unpriced (price 0) while the first prices
at £154.00: the order is *created* (it is not rejected with 422) and it
contains a zero-priced unit, because the handler only rejects when the
summed gross total is ≤ 0. -/
theorem c1_zero_priced_unit_order_created :
    (V1.checkout [c1PricedRaw, c1UnpricedRaw]).created = true ∧
    (V1.checkout [c1PricedRaw, c1UnpricedRaw]).hasZeroPricedUnit = true ∧
    V1.checkout [c1PricedRaw, c1UnpricedRaw] ≠ V1.Outcome.unpriced422 := by
  refine ⟨?_, ?_, ?_⟩ <;> with_unfolding_all decide

/-- C2: the wire bytes `{ }` parse to the empty JSON object, whose
`JSON.stringify` re-serialization `{}` differs from the wire bytes; the
second and third servers in `server.js` therefore hand the HMAC a
message different from `timestamp ++ "." ++ rawBodyBytes`, while
`parseJsonRaw` in `part_000` preserves the wire bytes exactly. -/
theorem c2_hmac_over_reserialized_body :
    jsonParse rawWireBody = some (JVal.obj [])
  ∧ P0.parseJsonRaw rawWireBody = some (rawWireBody, JVal.obj [])
  ∧ V2.hmacMessage "123" (JVal.obj []) ≠ "123" ++ "." ++ rawWireBody
  ∧ V3.hmacMessage "123" (JVal.obj []) ≠ "123" ++ "." ++ rawWireBody := by
  refine ⟨rfl, rfl, ?_, ?_⟩ <;> with_unfolding_all decide

/-- C3, counterexample: for the self-cleaning 300×300 mm unit (pair and
band present in the table), the code prices
`max(48.75, 0.09×125 + 0.09×30) = £48.75`, while the claimed formula
"floor first, then add the surcharge" gives
`max(48.75, 0.09×125) + 0.09×30 = £51.45`. -/
theorem c3_counterexample_floor_before_surcharge :
    P2.calcUnitPriceIncVatDGU c3Unit = 4875/100
  ∧ P2.specDguPriceFloorThenSurcharge c3Unit = some (5145/100)
  ∧ (4875/100 : ℚ) ≠ 5145/100 := by
  refine ⟨?_, ?_, ?_⟩ <;> with_unfolding_all decide

/-- C3, amended: for every DGU unit whose pair and band exist in the
pricing table, the unit price is
`max(minimumPrice, areaM2 × (bandRate + selfCleaningBandRate))` — the
self-cleaning surcharge is added to the area cost *before* the
minimum-price floor is applied (with surcharge rate 0 when
self-cleaning is not requested). -/
theorem c3_amended_price_formula (u : P2.DguUnit) (w h : ℚ) (t : P2.PriceTable) (r : ℚ)
    (hw : u.widthMm = some w) (hh : u.heightMm = some h)
    (hwpos : 0 < w) (hhpos : 0 < h)
    (ht : P2.PRICING_TABLES (u.outerGlass ++ "|" ++ u.innerGlass) = some t)
    (hr : P2.bandRate (w * h / 1000000) t.bands = r) (hr0 : r ≠ 0) :
    P2.calcUnitPriceIncVatDGU u =
      max t.minPrice (w * h / 1000000 *
        (r + (if u.selfCleaning = "Yes"
              then P2.bandRate (w * h / 1000000) P2.SELF_CLEAN_BANDS else 0))) := by
  unfold P2.calcUnitPriceIncVatDGU
  rw [hw, hh]
  simp only [ht, hr]
  rw [if_neg (by push_neg; exact ⟨hwpos, hhpos⟩), if_neg hr0, mul_add]

/-- Witness for the amended C3 at the concrete 300×300 mm self-cleaning
unit: the formula evaluates to £48.75. -/
theorem c3_amended_witness : P2.calcUnitPriceIncVatDGU c3Unit = 4875/100 :=
  (c3_amended_price_formula c3Unit 300 300
      ⟨4875/100, [⟨0, 99/100, 125⟩, ⟨1, 149/100, 130⟩, ⟨15/10, 199/100, 135⟩, ⟨2, 25/10, 140⟩]⟩
      125 rfl rfl (by norm_num) (by norm_num) (by with_unfolding_all decide)
      (by with_unfolding_all decide) (by norm_num)).trans (by with_unfolding_all decide)

/-- C5, counterexample: with a client-declared `grandTotal` of 999 and
a single unit whose line total is 10, the second server forwards 999
to the order note, not the recomputed sum 10. -/
theorem c5_counterexample_forwarded_grand_total :
    V2.grandTotalSelection (some 999) [⟨some 1, some 10, some 10⟩] = 999
  ∧ V2.sumLineTotals [⟨some 1, some 10, some 10⟩] = 10
  ∧ (999 : ℚ) ≠ 10 := by
  refine ⟨?_, ?_, ?_⟩ <;> with_unfolding_all decide

/-- C5, amended: a positive client-declared `grandTotal` (second
server), or any finite one (`part_000`), is forwarded in place of the
recomputed sum; only when it is absent/non-finite (or, in the second
server, not positive) is the recomputed sum of the units' line totals
used, which is zero for the empty list. -/
theorem c5_amended_grand_total_policy (g : JNum) (units : List V2.PayloadUnit)
    (lineTotals : List JNum) (g0 : ℚ) :
    (0 < V2.roundMoney g → V2.grandTotalSelection g units = V2.roundMoney g)
  ∧ (¬ 0 < V2.roundMoney g → V2.grandTotalSelection g units = V2.sumLineTotals units)
  ∧ V2.sumLineTotals [] = 0
  ∧ P0.grandTotalSelection (some g0) lineTotals = g0
  ∧ P0.grandTotalSelection none lineTotals = P0.computedGrandTotal lineTotals
  ∧ P0.computedGrandTotal [] = 0 := by
  refine ⟨?_, ?_, ?_, rfl, rfl, rfl⟩
  · intro hpos
    simp only [V2.grandTotalSelection]
    rw [if_pos hpos]
  · intro hneg
    simp only [V2.grandTotalSelection]
    rw [if_neg hneg]
  · with_unfolding_all decide

/-- Witness for the amended C5: a declared total of 999 is forwarded;
a missing declared total falls back to the (empty) sum. -/
theorem c5_amended_witness :
    V2.grandTotalSelection (some 999) [] = V2.roundMoney (some 999)
  ∧ V2.grandTotalSelection none [] = V2.sumLineTotals [] :=
  ⟨(c5_amended_grand_total_policy (some 999) [] [] 0).1 (by with_unfolding_all decide),
   (c5_amended_grand_total_policy none [] [] 0).2.1 (by with_unfolding_all decide)⟩

/-- C4: with both headers present and a numeric timestamp, `verifyHmac`
in `part_000` never reports `timestamp_skew` while the absolute skew is
at most the configured maximum (and verifies successfully at exactly
the maximum when the signature matches), and rejects with exactly
`timestamp_skew` — for every signature, i.e. before the HMAC is
compared — as soon as the skew exceeds the maximum by at least 1 ms. -/
theorem c4_timestamp_skew_boundary (hmac : String → String) (now maxSkewMs tsNum : Int)
    (ts sig raw : String) (hts : ts ≠ "") (hsig : sig ≠ "")
    (hparse : parseNum ts = some tsNum) :
    (|now - tsNum| ≤ maxSkewMs →
       (P0.verifyHmac hmac now maxSkewMs ts sig raw).reason ≠ some "timestamp_skew")
  ∧ (|now - tsNum| = maxSkewMs → sig = hmac (ts ++ "." ++ raw) →
       P0.verifyHmac hmac now maxSkewMs ts sig raw = ⟨true, none⟩)
  ∧ (maxSkewMs + 1 ≤ |now - tsNum| →
       P0.verifyHmac hmac now maxSkewMs ts sig raw = ⟨false, some "timestamp_skew"⟩) := by
  have hhd : ¬(ts = "" ∨ sig = "") := by
    push_neg
    exact ⟨hts, hsig⟩
  have key : P0.verifyHmac hmac now maxSkewMs ts sig raw =
      (if maxSkewMs < |now - tsNum| then ⟨false, some "timestamp_skew"⟩
       else if timingSafeEqualHex (hmac (ts ++ "." ++ raw)) sig = true then ⟨true, none⟩
       else ⟨false, some "bad_signature"⟩) := by
    unfold P0.verifyHmac
    rw [if_neg hhd, hparse]
  refine ⟨?_, ?_, ?_⟩
  · intro hle
    rw [key, if_neg (not_lt_of_le hle)]
    split
    · simp
    · simp
  · intro heq hsigeq
    rw [key, if_neg (by rw [heq]; exact lt_irrefl _),
      if_pos (by rw [hsigeq]; simp [timingSafeEqualHex])]
  · intro hgt
    rw [key, if_pos (Int.lt_iff_add_one_le.mpr hgt)]

/-- Witness for C4: at `now = 1000000` with a 300000 ms window, the
timestamp 700000 (skew exactly 300000) verifies with the matching
signature, and the timestamp 699999 (skew 300001) is rejected with
`timestamp_skew` even though its signature matches. -/
theorem c4_witness :
    P0.verifyHmac wHmac 1000000 300000 "700000"
      (wHmac ("700000" ++ "." ++ "body")) "body" = ⟨true, none⟩
  ∧ P0.verifyHmac wHmac 1000000 300000 "699999"
      (wHmac ("699999" ++ "." ++ "body")) "body" = ⟨false, some "timestamp_skew"⟩ :=
  ⟨(c4_timestamp_skew_boundary wHmac 1000000 300000 700000 "700000"
      (wHmac ("700000" ++ "." ++ "body")) "body" (by decide) (by decide)
      (by decide)).2.1 (by decide) rfl,
   (c4_timestamp_skew_boundary wHmac 1000000 300000 699999 "699999"
      (wHmac ("699999" ++ "." ++ "body")) "body" (by decide) (by decide)
      (by decide)).2.2 (by decide)⟩

/-- The skylight validation loop rejects whenever some listed unit is
invalid (it stops at the first one). -/
theorem skylightLoop_none_of_invalid (l : List P2.SkyUnit) :
    ∀ t g : ℚ, (∃ u ∈ l, P2.validateSkylightUnit u = false) →
      P2.skylightLoop l t g = none := by
  induction l with
  | nil =>
    intro t g h
    rcases h with ⟨u, hu, _⟩
    cases hu
  | cons a rest ih =>
    intro t g h
    by_cases ha : P2.validateSkylightUnit a
    · rcases h with ⟨u, hu, hval⟩
      rcases List.mem_cons.mp hu with rfl | hu2
      · rw [ha] at hval
        cases hval
      · unfold P2.skylightLoop
        rw [if_pos ha]
        exact ih _ _ ⟨u, hu2, hval⟩
    · unfold P2.skylightLoop
      rw [if_neg ha]

/-- A skylight unit whose internal width exceeds 1800 mm while its
height is below 600 mm, or whose internal area exceeds 3 m², fails
`validateSkylightUnit`. -/
theorem validateSkylightUnit_false_of_bad (u : P2.SkyUnit) (w h : ℚ)
    (hw : u.internalW = some w) (hh : u.internalH = some h)
    (hbad : (1800 < w ∧ h < 600) ∨ 3000000 < w * h) :
    P2.validateSkylightUnit u = false := by
  have key : P2.validateSkylightUnit u =
      (if w < 300 ∨ w > 2000 then false
       else if h < 300 ∨ h > 1200 then false
       else if w > 1800 ∧ h < 600 then false
       else if ¬(w * h > 0) ∨ w * h > 3000000 then false
       else
         match u.unitPrice with
         | none => false
         | some up =>
           if up ≤ 0 then false
           else
             match u.lineTotal with
             | none => false
             | some lt =>
               if lt ≤ 0 then false
               else P2.approxEqualMoney lt (up * u.qty) (1/10)) := by
    unfold P2.validateSkylightUnit
    rw [hw, hh]
  rw [key]
  split_ifs with h1 h2 h3 h4
  · rfl
  · rfl
  · rfl
  · rfl
  · rcases hbad with ⟨hwide, hlow⟩ | harea
    · exact absurd ⟨hwide, hlow⟩ h3
    · exact absurd (Or.inr harea) h4

/-- C8: a checkout request containing a skylight unit whose internal
width exceeds 1800 mm while its internal height is below 600 mm, or
whose internal area exceeds the 3 m² cap, is rejected with the 422
"Unpriced configuration" response before any order-creation call, and
`normalizeUnitSkylight` never clamps or resizes the internal
dimensions of any unit. -/
theorem c8_skylight_hard_rejection (unitsRaw : List P2.SkyRaw) (r : P2.SkyRaw) (w h : ℚ)
    (hmem : r ∈ unitsRaw) (hw : r.internalWidthMm = some w)
    (hh : r.internalHeightMm = some h)
    (hbad : (1800 < w ∧ h < 600) ∨ 3000000 < w * h) :
    P2.skylightCheckout unitsRaw = P2.SkyOutcome.unpriced422
  ∧ ∀ x : P2.SkyRaw, (P2.normalizeUnitSkylight x).internalW = x.internalWidthMm ∧
      (P2.normalizeUnitSkylight x).internalH = x.internalHeightMm := by
  constructor
  · unfold P2.skylightCheckout
    have hne : unitsRaw.isEmpty = false := by
      cases unitsRaw with
      | nil => cases hmem
      | cons a l => rfl
    rw [if_neg (by simp [hne])]
    rw [skylightLoop_none_of_invalid _ 0 0
      ⟨P2.normalizeUnitSkylight r, List.mem_map_of_mem _ hmem,
        validateSkylightUnit_false_of_bad _ w h hw hh hbad⟩]
  · intro x
    exact ⟨rfl, rfl⟩

/-- Witness for C8: the single-unit request with internal size
1900 mm × 500 mm is answered 422. -/
theorem c8_witness : P2.skylightCheckout [c8BadSkyRaw] = P2.SkyOutcome.unpriced422 :=
  (c8_skylight_hard_rejection [c8BadSkyRaw] c8BadSkyRaw 1900 500 (by simp) rfl rfl
    (Or.inl (by norm_num))).1

/-- When every attempt in the window comes back empty, the polling loop
makes exactly `fuel` fetches, sleeps `fuel * d` milliseconds, and
returns no URL. -/
theorem retryAux_all_empty (oracle : Nat → String) (d : Nat) :
    ∀ fuel i : Nat, (∀ k, k < fuel → oracle (i + k) = "") →
      P0.retryAux oracle d i fuel = ⟨none, fuel, fuel * d⟩ := by
  intro fuel
  induction fuel with
  | zero =>
    intro i _
    simp [P0.retryAux]
  | succ n ih =>
    intro i h
    have h0 : oracle i = "" := by simpa using h 0 (Nat.succ_pos n)
    unfold P0.retryAux
    rw [if_pos h0]
    rw [ih (i + 1) (fun k hk => by
      have := h (k + 1) (Nat.succ_lt_succ hk)
      rwa [show i + (k + 1) = i + 1 + k by omega] at this)]
    simp [Nat.succ_mul]

/-- The polling loop returns the URL of the first non-empty attempt in
the window. -/
theorem retryAux_first_success (oracle : Nat → String) (d : Nat) :
    ∀ fuel i j : Nat, j < fuel → oracle (i + j) ≠ "" →
      (∀ k, k < j → oracle (i + k) = "") →
      (P0.retryAux oracle d i fuel).url = some (oracle (i + j)) := by
  intro fuel
  induction fuel with
  | zero =>
    intro i j hj
    exact absurd hj (Nat.not_lt_zero j)
  | succ n ih =>
    intro i j hj hne hprev
    cases j with
    | zero =>
      have h0 : ¬ oracle i = "" := by simpa using hne
      unfold P0.retryAux
      rw [if_neg h0]
      simp
    | succ m =>
      have h0 : oracle i = "" := by simpa using hprev 0 (Nat.succ_pos m)
      unfold P0.retryAux
      rw [if_pos h0]
      have := ih (i + 1) m (Nat.lt_of_succ_lt_succ hj)
        (by rwa [show i + 1 + m = i + (m + 1) by omega])
        (fun k hk => by
          have := hprev (k + 1) (Nat.succ_lt_succ hk)
          rwa [show i + (k + 1) = i + 1 + k by omega] at this)
      rw [show i + (m + 1) = i + 1 + m by omega]
      exact this

/-- C9: when order creation succeeded but the invoice URL is absent,
the handler polls `fetchInvoiceUrlWithRetry` with exactly 10 attempts
at a fixed 250 ms delay, returning the first non-empty URL; when all
attempts are exhausted it answers 502 with the distinct reason
`invoiceUrl_null` carrying the already-created order's id — a response
different from the order-creation-failure path, which surfaces the
collaborator's user errors as a 400. -/
theorem c9_invoice_polling (oracle : Nat → String) (p : P0.DraftCreatePayload) (id : String) :
    ((∀ k, k < 10 → oracle k = "") →
        P0.fetchInvoiceUrlWithRetry oracle 10 250 = ⟨none, 10, 2500⟩)
  ∧ (∀ j, j < 10 → oracle j ≠ "" → (∀ k, k < j → oracle k = "") →
        (P0.fetchInvoiceUrlWithRetry oracle 10 250).url = some (oracle j))
  ∧ (p.userErrors = [] → p.draftOrder = some ⟨id, ""⟩ → (∀ k, k < 10 → oracle k = "") →
        P0.finishCheckout p oracle = P0.Resp.missingInvoice502 "invoiceUrl_null" (some id))
  ∧ (p.userErrors ≠ [] → P0.finishCheckout p oracle = P0.Resp.userErrors400 p.userErrors) := by
  have hempty : (∀ k, k < 10 → oracle k = "") →
      P0.fetchInvoiceUrlWithRetry oracle 10 250 = ⟨none, 10, 2500⟩ := by
    intro h
    have := retryAux_all_empty oracle 250 10 0 (fun k hk => by simpa using h k hk)
    simpa [P0.fetchInvoiceUrlWithRetry] using this
  refine ⟨hempty, ?_, ?_, ?_⟩
  · intro j hj hne hprev
    have := retryAux_first_success oracle 250 10 0 j hj (by simpa using hne)
      (fun k hk => by simpa using hprev k hk)
    simpa [P0.fetchInvoiceUrlWithRetry] using this
  · intro herr hdo hall
    unfold P0.finishCheckout
    rw [if_neg (by simp [herr]), hdo]
    simp only [Option.map_some]
    rw [hempty hall]
    simp
  · intro herr
    unfold P0.finishCheckout
    rw [if_pos herr]

/-- Witness for C9: with an oracle that never produces a URL, the
polling trace is exactly 10 fetches and 2500 ms of sleep, and the
handler answers 502 `invoiceUrl_null` with the created order's id. -/
theorem c9_witness :
    P0.fetchInvoiceUrlWithRetry emptyOracle 10 250 = ⟨none, 10, 2500⟩
  ∧ P0.finishCheckout c9Payload emptyOracle
      = P0.Resp.missingInvoice502 "invoiceUrl_null" (some "gid-draft-1") :=
  ⟨(c9_invoice_polling emptyOracle c9Payload "gid-draft-1").1 (fun _ _ => rfl),
   (c9_invoice_polling emptyOracle c9Payload "gid-draft-1").2.2.1 rfl rfl (fun _ _ => rfl)⟩

/-- C10: for a `POST /checkout` request to `part_002` (or `part_004`)
whose body was not captured as raw bytes (`req.rawBody` undefined) but
whose signature headers are present and whose origin passes, the
verifier's unguarded `req.rawBody.toString("utf8")` throws, and the
catch-all answers 500 "Server error" — whereas the same request with a
captured raw body and a mismatching signature is answered 401. -/
theorem c10_undefined_rawBody_500 (allowedOrigin : String) (hmac : String → String)
    (req : P2.Req) (horigin : req.origin = allowedOrigin)
    (hts : req.tsHeader ≠ "") (hsig : req.sigHeader ≠ "") :
    (req.rawBody = none →
        P2.checkoutAuth allowedOrigin hmac req = P2.AuthOutcome.serverError500)
  ∧ (∀ raw, req.rawBody = some raw →
        timingSafeEqualHex req.sigHeader (hmac (req.tsHeader ++ "." ++ raw)) = false →
        P2.checkoutAuth allowedOrigin hmac req = P2.AuthOutcome.unauthorized401) := by
  have hhd : ¬(req.tsHeader = "" ∨ req.sigHeader = "") := by
    push_neg
    exact ⟨hts, hsig⟩
  constructor
  · intro hraw
    unfold P2.checkoutAuth P2.verifyFrontendSignature
    rw [if_neg (by simp [horigin]), if_neg hhd, hraw]
  · intro raw hraw hbad
    unfold P2.checkoutAuth P2.verifyFrontendSignature
    rw [if_neg (by simp [horigin]), if_neg hhd, hraw]
    simp [hbad]

/-- Witness for C10: the request with no captured raw body is answered
500; the one with a captured body and a bad signature is answered 401. -/
theorem c10_witness :
    P2.checkoutAuth "https://shop.example" wHmac c10CrashReq = P2.AuthOutcome.serverError500
  ∧ P2.checkoutAuth "https://shop.example" wHmac c10BadSigReq
      = P2.AuthOutcome.unauthorized401 :=
  ⟨(c10_undefined_rawBody_500 "https://shop.example" wHmac c10CrashReq rfl (by decide)
      (by decide)).1 rfl,
   (c10_undefined_rawBody_500 "https://shop.example" wHmac c10BadSigReq rfl (by decide)
      (by decide)).2 "" rfl (by decide)⟩
